import Mathlib

/-!
# Verification of the eSIM request-to-match resolution pipeline

Shallow embedding of the live `/prompt` pipeline of the conversational eSIM
backend: the catalog access layer (`getCountryCode`, `getEsimData`), the
close-match fallback query, the response envelope builder, and the request
handler that sequences extraction, country resolution, plan resolution, and
composition.  The embedding follows the TypeScript source; external effects
(the generation call, Supabase query errors) are made explicit as parameters
of the handler's environment.
-/

namespace EsimKb

/-- Whether the character list `p` is a starting segment of `s`. -/
def startsList : List Char → List Char → Bool
  | [], _ => true
  | _ :: _, [] => false
  | a :: as, b :: bs => a == b && startsList as bs

/-- Whether the character list `p` occurs contiguously inside `s`. -/
def subList (p : List Char) : List Char → Bool
  | [] => startsList p []
  | c :: cs => startsList p (c :: cs) || subList p cs

/-- SQL `column LIKE '%pat%'` containment: `pat` occurs as a substring of `s`.
Models the PostgREST `.like(col, ``%x%``)` filters of the source. -/
def likeMatch (s pat : String) : Bool :=
  subList pat.toList s.toList

/-- Row of the `besim` plan catalog table, with the columns the handler reads
or forwards (`id`, `country_code`, `country_name`, `data_amount`, `data_unit`,
`duration_in_days`, `idr_price`). -/
structure PlanRecord where
  id : Nat
  country_code : String
  country_name : String
  data_amount : Int
  data_unit : String
  duration_in_days : Int
  idr_price : Int
  deriving DecidableEq, Repr

/-- Row of the `countries` reference table: `code` and `name`. -/
structure CountryRecord where
  code : String
  name : String
  deriving DecidableEq, Repr

/-- JavaScript truthiness of a nullable string: `null`/`undefined` and the
empty string are falsy.  The source guards every filter with `if (x) {...}`. -/
def truthyStr : Option String → Bool
  | none => false
  | some s => s != ""

/-- JavaScript truthiness of a nullable number: `null`/`undefined` and `0`
are falsy. -/
def truthyNum : Option Int → Bool
  | none => false
  | some n => n != 0

/-- `getCountryCode` of the source: query `countries` for rows whose `name`
equals the extracted country name, returning the first row.  A storage error
(`fail = true`) returns `null`, exactly like the zero-row case — the source
logs the error and `return null`. -/
def getCountryCode (countries : List CountryRecord) (fail : Bool)
    (country_name : Option String) : Option CountryRecord :=
  if fail then none
  else
    match country_name with
    | none => none
    | some n => (countries.filter (fun r => r.name == n)).head?

/-- The filter chain of `getEsimData`: each clause is added only when the
corresponding argument is truthy (`if (country_code)`, `if (data_unit)`,
`if (data_amount)`, `if (duration_in_days)` in the source), and the
`limit(3)` is added only when `!data_unit && !data_amount && duration_in_days`. -/
def esimFilters (country_code : Option String) (data_amount : Option Int)
    (data_unit : Option String) (duration_in_days : Option Int)
    (besim : List PlanRecord) : List PlanRecord :=
  let q := besim
  let q := if truthyStr country_code then
      q.filter (fun r => likeMatch r.country_code (country_code.getD "")) else q
  let q := if truthyStr data_unit then
      q.filter (fun r =>
        likeMatch r.data_unit (data_unit.getD "") && r.data_unit == data_unit.getD "")
    else q
  let q := if truthyNum data_amount then
      q.filter (fun r => decide (data_amount.getD 0 ≤ r.data_amount)) else q
  let q := if truthyNum duration_in_days then
      q.filter (fun r => r.duration_in_days == duration_in_days.getD 0) else q
  if !truthyStr data_unit && !truthyNum data_amount && truthyNum duration_in_days then
    q.take 3
  else q

/-- `getEsimData` of the source: run the strict filter chain against `besim`;
a storage error (`fail = true`) is logged and returns `null` (`none`), the
successful query returns the rows. -/
def getEsimData (besim : List PlanRecord) (fail : Bool)
    (country_code : Option String) (data_amount : Option Int)
    (data_unit : Option String) (duration_in_days : Option Int) :
    Option (List PlanRecord) :=
  if fail then none
  else some (esimFilters country_code data_amount data_unit duration_in_days besim)

/-- The close-match fallback query of the handler:
`like(country_code, %code%)`, `gte(duration_in_days, duration)`, `limit(3)`,
with no `order` clause (rows keep catalog order).  The `gte` bound is the raw
extracted duration: when it is `null`, SQL comparison against a null bound
holds for no row, so the query yields zero rows. -/
def closeMatchQuery (besim : List PlanRecord) (code : String)
    (duration_in_days : Option Int) : List PlanRecord :=
  ((besim.filter (fun r => likeMatch r.country_code code)).filter
      (fun r =>
        match duration_in_days with
        | none => false
        | some d => decide (d ≤ r.duration_in_days))).take 3

/-- The structured record extracted from the user's text, after the handler's
`?? null` coalescing of absent fields. -/
structure IntentRecord where
  country_code : Option String
  country_name : Option String
  data_amount : Option Int
  data_unit : Option String
  duration_in_days : Option Int
  chat_response : String
  deriving DecidableEq, Repr

/-- The `data` slot of the response envelope.  The source passes `esimData`
straight through, so it can be the JSON `null` (when the strict query
errored) as well as an array of rows. -/
inductive DataVal
  | null
  | rows (rs : List PlanRecord)
  deriving DecidableEq, Repr

/-- The response envelope shape `{status, success, message, chat_response, data}`. -/
structure Resp where
  status : Int
  success : Bool
  message : String
  chat_response : String
  data : DataVal
  deriving DecidableEq, Repr

/-- The `response` helper of the source. -/
def response (status : Int) (success : Bool) (message chat_response : String)
    (data : DataVal) : Resp :=
  ⟨status, success, message, chat_response, data⟩

/-- Terminal result of the `/prompt` handler: either a bare
`c.json({error}, code)` or a composed envelope. -/
inductive HandlerResult
  | errorJson (msg : String) (status : Int)
  | envelope (r : Resp)
  deriving DecidableEq, Repr

/-- Catalog reads the handler can issue, in order: the `countries` lookup, the
strict `besim` query, and the close-match `besim` query. -/
inductive CatalogCall
  | countriesQ
  | besimStrict
  | besimClose
  deriving DecidableEq, Repr

/-- Outcome of the schema-constrained extraction chain: it can throw, return
a falsy result, or return a record. -/
inductive ExtractOutcome
  | throws (msg : String)
  | nullResult
  | ok (r : IntentRecord)

/-- The catalog environment a request runs against: the two tables plus
explicit failure switches for each of the three queries (`closeFail` carries
the error message, which the handler puts in the 500 envelope). -/
structure Env where
  countries : List CountryRecord
  besim : List PlanRecord
  countryFail : Bool
  esimFail : Bool
  closeFail : Option String

/-- JavaScript template interpolation of a nullable string: `null` prints as
`"null"`. -/
def jsTemplate : Option String → String
  | none => "null"
  | some s => s

/-- Message of the country-unrecognized envelope. -/
def noExactMsg : String := "No exact match found."

/-- Message of both close-match envelopes (the empty 404 and the populated 400). -/
def closeMsg (country_name : Option String) : String :=
  "No exact match found. Here are the closest matches based on " ++
    jsTemplate country_name ++ " esim."

/-- The `/prompt` handler from the point where the extraction chain has been
invoked: mirrors the source's control flow and also records which catalog
queries were issued.  An extraction throw is caught and returned as
`{error: e.message}` with status 500 before any catalog access; a falsy
extraction result returns `{error: "No result"}` 404.  Otherwise the handler
resolves the country (`null` → the 404 country-unrecognized envelope), runs
the strict query, and branches on `esimData?.length === 0`: only the
`some []` case enters the close-match fallback — both a nonempty result and a
`null` (errored) result fall through to the 200 "Exact match found" envelope. -/
def handlePrompt (env : Env) (ex : ExtractOutcome) :
    HandlerResult × List CatalogCall :=
  match ex with
  | .throws msg => (.errorJson msg 500, [])
  | .nullResult => (.errorJson "No result" 404, [])
  | .ok r =>
    match getCountryCode env.countries env.countryFail r.country_name with
    | none =>
        (.envelope (response 404 false noExactMsg r.chat_response (.rows [])),
         [.countriesQ])
    | some cc =>
        match getEsimData env.besim env.esimFail (some cc.code) r.data_amount
            r.data_unit r.duration_in_days with
        | some [] =>
            match env.closeFail with
            | some msg =>
                (.envelope (response 500 false msg r.chat_response (.rows [])),
                 [.countriesQ, .besimStrict, .besimClose])
            | none =>
                let cm := closeMatchQuery env.besim cc.code r.duration_in_days
                if cm.isEmpty then
                  (.envelope (response 404 false (closeMsg r.country_name)
                      r.chat_response (.rows [])),
                   [.countriesQ, .besimStrict, .besimClose])
                else
                  (.envelope (response 400 false (closeMsg r.country_name)
                      r.chat_response (.rows cm)),
                   [.countriesQ, .besimStrict, .besimClose])
        | esimRes =>
            (.envelope (response 200 true "Exact match found" r.chat_response
                (match esimRes with
                 | none => DataVal.null
                 | some rs => DataVal.rows rs)),
             [.countriesQ, .besimStrict])

/-! ## Concrete catalog data used by counterexamples and witnesses -/

/-- The Japan row of the countries table. -/
def cJP : CountryRecord := ⟨"JP", "Japan"⟩

/-- A Japan plan: 1 GB for 5 days; its own `country_name` column holds the raw
catalog value, not the canonical country name. -/
def pJp5 : PlanRecord := ⟨1, "JP", "jp-raw", 1, "GB", 5, 100⟩

/-- A Japan plan: 1 GB for 10 days. -/
def pJp10 : PlanRecord := ⟨2, "JP", "jp-raw", 1, "GB", 10, 100⟩

/-- Third Japan plan. -/
def pJp15 : PlanRecord := ⟨3, "JP", "jp-raw", 1, "GB", 15, 100⟩

/-- Fourth Japan plan. -/
def pJp30 : PlanRecord := ⟨4, "JP", "jp-raw", 1, "GB", 30, 100⟩

/-- Intent mentioning Japan with every filter field null. -/
def intentJp : IntentRecord := ⟨none, some "Japan", none, none, none, "chat"⟩

/-- Intent for Japan requesting amount 99 and duration 5 (no unit). -/
def intentJpAmt99Dur5 : IntentRecord :=
  ⟨none, some "Japan", some 99, none, some 5, "chat"⟩

/-- Intent for Japan requesting amount 99, duration unspecified. -/
def intentJpAmt99 : IntentRecord :=
  ⟨none, some "Japan", some 99, none, none, "chat"⟩

/-- Intent naming a country absent from the countries table. -/
def intentMars : IntentRecord := ⟨none, some "Mars", none, none, none, "chat"⟩

/-- Healthy catalog with one Japan plan. -/
def envJp1 : Env := ⟨[cJP], [pJp5], false, false, none⟩

/-- Healthy catalog with two Japan plans of durations 5 and 10, in that order. -/
def envJp2 : Env := ⟨[cJP], [pJp5, pJp10], false, false, none⟩

/-- Healthy catalog with four Japan plans. -/
def envJp4 : Env := ⟨[cJP], [pJp5, pJp10, pJp15, pJp30], false, false, none⟩

/-- Healthy countries table but an empty plan catalog. -/
def envEmptyBesim : Env := ⟨[cJP], [], false, false, none⟩

/-- Environment whose `countries` query errors. -/
def envCountryErr : Env := ⟨[cJP], [pJp5], true, false, none⟩

/-- Environment whose strict `besim` query errors. -/
def envEsimErr : Env := ⟨[cJP], [pJp5], false, true, none⟩

/-! ## Helper lemmas -/

/-- With a null duration bound, the close-match query yields no rows: the
`gte` comparison against a null bound holds for no row. -/
theorem closeMatchQuery_none (besim : List PlanRecord) (code : String) :
    closeMatchQuery besim code none = [] := by
  simp [closeMatchQuery]

/-- The country-unrecognized message differs from the close-match message,
whatever the extracted country name. -/
theorem noExact_ne_closeMsg (cn : Option String) : noExactMsg ≠ closeMsg cn := by
  intro hEq
  have h1 := congrArg String.length hEq
  rw [closeMsg, String.length_append, String.length_append] at h1
  have h2 : noExactMsg.length = 21 := by decide
  have h3 : "No exact match found. Here are the closest matches based on ".length = 60 := by
    decide
  have h4 : " esim.".length = 6 := by decide
  omega

/-! ## Claims -/

/-- Claim C1: the claim says a failing catalog read (country lookup or plan
query) surfaces as a request failure and is never converted into a normal
outcome.  The code instead swallows both: a failing `countries` query becomes
the 404 country-unrecognized envelope (here while Japan is present in the
table), and a failing strict `besim` query falls through `esimData?.length
=== 0` into the 200 success "Exact match found" envelope with `null` data. -/
theorem c1_catalog_error_swallowed :
    (handlePrompt envCountryErr (.ok intentJp)).fst =
      .envelope (response 404 false noExactMsg "chat" (.rows [])) ∧
    (handlePrompt envEsimErr (.ok intentJp)).fst =
      .envelope (response 200 true "Exact match found" "chat" DataVal.null) := by
  decide

/-- Claim C2, counterexample: with `duration_in_days = 0` — non-null,
"specified as zero" — the strict duration filter is NOT applied: the query
returns the catalog row whose duration is 5, which an applied equality filter
against 0 would have excluded. -/
theorem c2_counterexample :
    esimFilters none none none (some 0) [pJp5] = [pJp5] ∧
      pJp5.duration_in_days ≠ 0 := by
  decide

/-- Claim C2, amended: each strict filter is applied iff its argument is
truthy; an empty-string or zero argument is treated exactly like null —
the filter is skipped, and the query result is the same as with a null
argument. -/
theorem c2_falsy_filter_skipped (besim : List PlanRecord) (c : Option String)
    (a : Option Int) (u : Option String) (d : Option Int) :
    esimFilters (some "") a u d besim = esimFilters none a u d besim ∧
    esimFilters c (some 0) u d besim = esimFilters c none u d besim ∧
    esimFilters c a (some "") d besim = esimFilters c a none d besim ∧
    esimFilters c a u (some 0) besim = esimFilters c a u none besim := by
  refine ⟨?_, ?_, ?_, ?_⟩ <;> simp [esimFilters, truthyStr, truthyNum]

/-- Claim C3, counterexample: all four arguments are non-null (duration is
`some 0`), yet the query returns a row whose duration is 5 ≠ 0, violating the
claimed duration-equality constraint. -/
theorem c3_counterexample :
    esimFilters (some "JP") (some 1) (some "GB") (some 0) [pJp5] = [pJp5] ∧
      pJp5.duration_in_days ≠ 0 := by
  decide

/-- Claim C3, amended: when all four arguments are truthy (non-null,
non-zero, non-empty), every row returned by the strict query satisfies all
four constraints: country-code containment, data-unit equality, at least the
requested amount, and exact duration. -/
theorem c3_strict_rows_sound (besim : List PlanRecord) (code unit : String)
    (amt dur : Int) (hc : code ≠ "") (hu : unit ≠ "") (ha : amt ≠ 0)
    (hd : dur ≠ 0) (r : PlanRecord)
    (hr : r ∈ esimFilters (some code) (some amt) (some unit) (some dur) besim) :
    likeMatch r.country_code code = true ∧ r.data_unit = unit ∧
      amt ≤ r.data_amount ∧ r.duration_in_days = dur := by
  have hcT : truthyStr (some code) = true := by simp [truthyStr, hc]
  have huT : truthyStr (some unit) = true := by simp [truthyStr, hu]
  have haT : truthyNum (some amt) = true := by simp [truthyNum, ha]
  have hdT : truthyNum (some dur) = true := by simp [truthyNum, hd]
  simp only [esimFilters, hcT, huT, haT, hdT, if_true, Bool.not_true,
    Bool.false_and, Bool.and_false, if_false, Option.getD_some,
    Bool.false_eq_true, ite_true, ite_false] at hr
  simp only [List.mem_filter, Bool.and_eq_true, beq_iff_eq,
    decide_eq_true_eq] at hr
  exact ⟨hr.1.1.1.2, hr.1.1.2.2, hr.1.2, hr.2⟩

/-- Claim C3 witness: the amended theorem instantiated at a concrete catalog
and request. -/
theorem c3_strict_rows_sound_witness :
    likeMatch pJp5.country_code "JP" = true ∧ pJp5.data_unit = "GB" ∧
      (1 : Int) ≤ pJp5.data_amount ∧ pJp5.duration_in_days = 5 :=
  c3_strict_rows_sound [pJp5] "JP" "GB" 1 5 (by decide) (by decide)
    (by decide) (by decide) pJp5 (by decide)

/-- Claim C9: when the extraction chain throws, the handler returns the
diagnostic error as a 500 request failure and issues no catalog calls at all
— the outcome is never an empty intent record flowing on into the pipeline. -/
theorem c9_extraction_throw_surfaced (env : Env) (msg : String) :
    handlePrompt env (.throws msg) = (.errorJson msg 500, []) := rfl

/-- Claim C4, counterexample: strict query empty, relaxed query returns the
two Japan rows — but in catalog order (duration 5 before duration 10), not
ordered by descending duration as the claim states. -/
theorem c4_counterexample :
    (handlePrompt envJp2 (.ok intentJpAmt99Dur5)).fst =
      .envelope (response 400 false (closeMsg (some "Japan")) "chat"
        (.rows [pJp5, pJp10])) ∧
    pJp5.duration_in_days < pJp10.duration_in_days := by
  decide

/-- Claim C4, amended: when the strict query yields zero rows and the relaxed
query (country-code containment plus duration ≥ bound) yields at least one
row, the handler returns the close-match envelope — never the no-match one —
with at most 3 rows, in catalog order (no ordering is applied). -/
theorem c4_close_match_returned (env : Env) (r : IntentRecord)
    (cc : CountryRecord)
    (hcc : getCountryCode env.countries env.countryFail r.country_name = some cc)
    (hs : getEsimData env.besim env.esimFail (some cc.code) r.data_amount
        r.data_unit r.duration_in_days = some [])
    (hcf : env.closeFail = none)
    (hnz : closeMatchQuery env.besim cc.code r.duration_in_days ≠ []) :
    (handlePrompt env (.ok r)).fst =
      .envelope (response 400 false (closeMsg r.country_name) r.chat_response
        (.rows (closeMatchQuery env.besim cc.code r.duration_in_days))) ∧
    (closeMatchQuery env.besim cc.code r.duration_in_days).length ≤ 3 := by
  constructor
  · simp [handlePrompt, hcc, hs, hcf, List.isEmpty_iff, hnz]
  · simp only [closeMatchQuery]
    exact List.length_take_le 3 _

/-- Claim C4 witness: the amended theorem instantiated at a concrete catalog
and request. -/
theorem c4_close_match_witness :
    (handlePrompt envJp2 (.ok intentJpAmt99Dur5)).fst =
      .envelope (response 400 false (closeMsg (some "Japan")) "chat"
        (.rows [pJp5, pJp10])) ∧
    ([pJp5, pJp10] : List PlanRecord).length ≤ 3 :=
  c4_close_match_returned envJp2 intentJpAmt99Dur5 cJP (by decide) (by decide)
    rfl (by decide)

/-- Claim C5, counterexample: with all filter fields null except the country,
the handler returns all four Japan rows — more than the claimed cap of 2 or 3
— because the strict pass applies its limit only when duration is given
without amount and unit. -/
theorem c5_counterexample :
    (handlePrompt envJp4 (.ok intentJp)).fst =
      .envelope (response 200 true "Exact match found" "chat"
        (.rows [pJp5, pJp10, pJp15, pJp30])) ∧
    3 < ([pJp5, pJp10, pJp15, pJp30] : List PlanRecord).length := by
  decide

/-- Claim C5, amended: with all filter fields null except a truthy country
code, the strict query returns exactly the rows whose `country_code` contains
the requested code — all of them, with no cap — and every returned row's
`country_code` contains the code. -/
theorem c5_code_only_uncapped (besim : List PlanRecord) (code : String)
    (hc : code ≠ "") :
    esimFilters (some code) none none none besim
      = besim.filter (fun r => likeMatch r.country_code code) ∧
    ∀ r ∈ besim.filter (fun r => likeMatch r.country_code code),
      likeMatch r.country_code code = true := by
  constructor
  · simp [esimFilters, truthyStr, truthyNum, hc]
  · intro r hr
    exact (List.mem_filter.mp hr).2

/-- Claim C5 witness: the amended theorem instantiated at the four-plan
catalog. -/
theorem c5_code_only_uncapped_witness :
    esimFilters (some "JP") none none none [pJp5, pJp10, pJp15, pJp30]
      = [pJp5, pJp10, pJp15, pJp30].filter
          (fun r => likeMatch r.country_code "JP") ∧
    ∀ r ∈ [pJp5, pJp10, pJp15, pJp30].filter
        (fun r => likeMatch r.country_code "JP"),
      likeMatch r.country_code "JP" = true :=
  c5_code_only_uncapped [pJp5, pJp10, pJp15, pJp30] "JP" (by decide)

/-- Claim C6, counterexample: an Exact outcome whose single data row keeps
its raw catalog `country_name` value "jp-raw", while the canonically resolved
country name is "Japan" — no re-projection happens. -/
theorem c6_counterexample :
    (handlePrompt envJp1 (.ok intentJp)).fst =
      .envelope (response 200 true "Exact match found" "chat" (.rows [pJp5])) ∧
    pJp5.country_name = "jp-raw" ∧ cJP.name = "Japan" := by
  decide

/-- Claim C6, amended: for every Exact outcome the envelope's data is the raw
strict-query row list, passed through unchanged — in particular each row's
`country_name` stays the raw catalog value; the canonical-name re-projection
appears only in an unreachable variant of the handler. -/
theorem c6_exact_rows_raw (env : Env) (r : IntentRecord) (cc : CountryRecord)
    (rows : List PlanRecord)
    (hcc : getCountryCode env.countries env.countryFail r.country_name = some cc)
    (hs : getEsimData env.besim env.esimFail (some cc.code) r.data_amount
        r.data_unit r.duration_in_days = some rows)
    (hne : rows ≠ []) :
    (handlePrompt env (.ok r)).fst =
      .envelope (response 200 true "Exact match found" r.chat_response
        (.rows rows)) := by
  cases rows with
  | nil => exact absurd rfl hne
  | cons a as => simp [handlePrompt, hcc, hs]

/-- Claim C6 witness: the amended theorem instantiated at a concrete catalog. -/
theorem c6_exact_rows_raw_witness :
    (handlePrompt envJp1 (.ok intentJp)).fst =
      .envelope (response 200 true "Exact match found" "chat" (.rows [pJp5])) :=
  c6_exact_rows_raw envJp1 intentJp cJP [pJp5] (by decide) (by decide)
    (by decide)

/-- Claim C7: when the countries query succeeds but finds no exact-equality
match for the extracted name, the handler short-circuits with the dedicated
404 country-unrecognized envelope — success false, empty data, carrying the
chat text — having issued only the countries query and no plan query; its
message also differs from the plans-not-found message. -/
theorem c7_country_not_found (env : Env) (r : IntentRecord)
    (hcf : env.countryFail = false)
    (h : getCountryCode env.countries false r.country_name = none) :
    handlePrompt env (.ok r) =
      (.envelope (response 404 false noExactMsg r.chat_response (.rows [])),
        [.countriesQ]) ∧
    noExactMsg ≠ closeMsg r.country_name := by
  refine ⟨?_, noExact_ne_closeMsg r.country_name⟩
  simp [handlePrompt, hcf, h]

/-- Claim C7 witness: the theorem instantiated at a country absent from the
countries table. -/
theorem c7_country_not_found_witness :
    handlePrompt envJp1 (.ok intentMars) =
      (.envelope (response 404 false noExactMsg "chat" (.rows [])),
        [CatalogCall.countriesQ]) ∧
    noExactMsg ≠ closeMsg (some "Mars") :=
  c7_country_not_found envJp1 intentMars rfl (by decide)

/-- Claim C8: when the strict query and the relaxed close-match query both
yield zero rows, the handler returns the 404 envelope with success false,
empty data, and the extracted chat text. -/
theorem c8_no_match_envelope (env : Env) (r : IntentRecord)
    (cc : CountryRecord)
    (hcc : getCountryCode env.countries env.countryFail r.country_name = some cc)
    (hs : getEsimData env.besim env.esimFail (some cc.code) r.data_amount
        r.data_unit r.duration_in_days = some [])
    (hcf : env.closeFail = none)
    (hcm : closeMatchQuery env.besim cc.code r.duration_in_days = []) :
    (handlePrompt env (.ok r)).fst =
      .envelope (response 404 false (closeMsg r.country_name) r.chat_response
        (.rows [])) := by
  simp [handlePrompt, hcc, hs, hcf, hcm]

/-- Claim C8 witness: the theorem instantiated at an empty plan catalog. -/
theorem c8_no_match_witness :
    (handlePrompt envEmptyBesim (.ok intentJp)).fst =
      .envelope (response 404 false (closeMsg (some "Japan")) "chat"
        (.rows [])) :=
  c8_no_match_envelope envEmptyBesim intentJp cJP (by decide) (by decide) rfl
    (by decide)

/-- Claim C10: the close-match query applies the duration ≥ bound
unconditionally; with a null extracted duration the comparison against the
null bound holds for no row, so whenever the strict query yields zero rows
the fallback also yields zero rows and the handler returns the 404 no-match
envelope — even when plans exist for the resolved country. -/
theorem c10_null_duration_no_match (env : Env) (r : IntentRecord)
    (cc : CountryRecord) (hd : r.duration_in_days = none)
    (hcc : getCountryCode env.countries env.countryFail r.country_name = some cc)
    (hs : getEsimData env.besim env.esimFail (some cc.code) r.data_amount
        r.data_unit r.duration_in_days = some [])
    (hcf : env.closeFail = none) :
    (handlePrompt env (.ok r)).fst =
      .envelope (response 404 false (closeMsg r.country_name) r.chat_response
        (.rows [])) := by
  rw [hd] at hs
  simp [handlePrompt, hcc, hs, hcf, hd, closeMatchQuery_none]

/-- Claim C10 witness: a Japan plan exists and matches the resolved country
code, yet the null-duration request ends in the 404 no-match envelope. -/
theorem c10_null_duration_witness :
    (pJp5 ∈ envJp1.besim ∧ likeMatch pJp5.country_code cJP.code = true) ∧
    (handlePrompt envJp1 (.ok intentJpAmt99)).fst =
      .envelope (response 404 false (closeMsg (some "Japan")) "chat"
        (.rows [])) :=
  ⟨by decide, c10_null_duration_no_match envJp1 intentJpAmt99 cJP rfl
    (by decide) (by decide) rfl⟩

end EsimKb
